import Mathlib

/-!
# cosmos-exporter: the general metrics handler

A shallow embedding of `general.go`: the governance proposal count query
(`queryGovCount`) and the scrape handler (`GeneralHandler`) with its eight
collection tasks, the gauges they set and the snapshot that is rendered.

Conventions of the embedding.

* A Go `error` is a value carrying its message (`err.Error()`); a call that
  returns `(value, err)` is an `Except Error value`.
* `float64` values are kept abstract: a `Float64Model F` supplies the carrier
  `F` together with the operations the handler uses (conversion from an
  integer, division, `strconv.ParseFloat`).  Theorems are stated for every such
  model; `ratModel` is an exact rational instance used for concrete inputs.
* The goroutines of the handler write disjoint gauges and are joined by
  `wg.Wait()` before rendering; each one is a step on an explicit accumulator
  and the handler runs the steps in source order.
-/

namespace CosmosExporter

/-! ## Errors and strings -/

/-- A Go `error`, observed through `err.Error()`. -/
structure Error where
  msg : String
deriving DecidableEq, Repr

/-- Go `strings.HasPrefix`, on the characters of the two strings. -/
def hasPrefix : List Char → List Char → Bool
  | _, [] => true
  | [], _ :: _ => false
  | c :: cs, p :: ps => c == p && hasPrefix cs ps

/-- Search for `sub` at every position of `s`. -/
def containsChars : List Char → List Char → Bool
  | [], sub => hasPrefix [] sub
  | c :: cs, sub => hasPrefix (c :: cs) sub || containsChars cs sub

/-- Go `strings.Contains(s, substr)`. -/
def stringsContains (s substr : String) : Bool :=
  containsChars s.data substr.data

/-! ## Governance proposal count -/

/-- The `ProposalStatus` enumeration of the gov module (same values in
`gov/v1beta1` and `gov/v1`). -/
inductive ProposalStatus where
  | StatusNil
  | StatusDepositPeriod
  | StatusVotingPeriod
  | StatusPassed
  | StatusRejected
  | StatusFailed
deriving DecidableEq, Repr

/-- A proposal record; only the number of records is used. -/
structure Proposal where
  id : Nat
deriving DecidableEq, Repr

/-- The gRPC calls `queryGovCount` can issue, with the status filter of the
request. -/
inductive GovCall where
  | v1beta1Proposals (status : ProposalStatus)
  | v1Proposals (status : ProposalStatus)
deriving DecidableEq, Repr

/-- The gov query services reachable through a `*grpc.ClientConn`: the answer
of the node to a `Proposals` request with a given status filter, for the
`gov/v1beta1` client and for the `gov/v1` client. -/
structure ClientConn where
  govv1beta1Proposals : ProposalStatus → Except Error (List Proposal)
  govv1Proposals : ProposalStatus → Except Error (List Proposal)

/-- The text that marks a node serving `gov/v1` proposals that cannot be
converted to `gov/v1beta1`. -/
def conversionErrorText : String :=
  "invalid type: can't convert a gov/v1 Proposal to gov/v1beta1 Proposal"

/-- What `queryGovCount` returns, `(int, error)`, together with the calls it
issued, in order. -/
structure GovResult where
  count : Int
  err : Option Error
  calls : List GovCall
deriving DecidableEq, Repr

/-- The function `queryGovCount` of `general.go`. -/
def queryGovCount (conn : ClientConn) : GovResult :=
  match conn.govv1beta1Proposals ProposalStatus.StatusVotingPeriod with
  | Except.ok proposals =>
    { count := (proposals.length : Int), err := none,
      calls := [GovCall.v1beta1Proposals ProposalStatus.StatusVotingPeriod] }
  | Except.error err =>
    if !stringsContains err.msg conversionErrorText then
      { count := 0, err := some err,
        calls := [GovCall.v1beta1Proposals ProposalStatus.StatusVotingPeriod] }
    else
      match conn.govv1Proposals ProposalStatus.StatusVotingPeriod with
      | Except.error err2 =>
        { count := 0, err := some err2,
          calls := [GovCall.v1beta1Proposals ProposalStatus.StatusVotingPeriod,
                    GovCall.v1Proposals ProposalStatus.StatusVotingPeriod] }
      | Except.ok proposals =>
        { count := (proposals.length : Int), err := none,
          calls := [GovCall.v1beta1Proposals ProposalStatus.StatusVotingPeriod,
                    GovCall.v1Proposals ProposalStatus.StatusVotingPeriod] }

/-! ## Floating point values, configuration, upstream -/

/-- The `float64` operations used by the handler, over an abstract carrier:
the zero value, the conversion of an integer (`float64(n)` and
`big.Float.SetInt(n).Float64()`), the division, and `strconv.ParseFloat(s, 64)`
(`none` when it returns an error). -/
structure Float64Model (F : Type) where
  zero : F
  ofInt : Int → F
  div : F → F → F
  parseFloat : String → Option F

/-- The package-level configuration read by the handler. -/
structure Config (F : Type) where
  ChainID : String
  Denom : String
  DenomCoefficient : F
  ConstLabels : List (String × String)

/-- The chain record returned by `cosmosdirectory.GetChainByChainID`, observed
through `GetPriceUSD()`. -/
structure Chain (F : Type) where
  priceUSD : F

/-- The `SyncInfo.LatestBlockHeight` of a Tendermint status response. -/
structure ResultStatus where
  LatestBlockHeight : Int

/-- The staking pool: `BondedTokens.BigInt()` and `NotBondedTokens.BigInt()`. -/
structure Pool where
  BondedTokens : Int
  NotBondedTokens : Int

/-- A coin of a collection response: its denom and `coin.Amount.String()`. -/
structure Coin where
  Denom : String
  Amount : String
deriving DecidableEq, Repr

/-- The answers of the upstream services to the queries of one scrape. -/
structure Upstream (F : Type) where
  GetChainByChainID : String → Except Error (Chain F)
  Status : Except Error ResultStatus
  Pool : Except Error Pool
  CommunityPool : Except Error (List Coin)
  TotalSupply : Except Error (List Coin)
  Inflation : Except Error String
  AnnualProvisions : Except Error String
  grpcConn : ClientConn

/-! ## Gauges and the accumulator -/

/-- A `prometheus.Gauge`: the argument of the last `Set`, `none` while `Set`
has not been called.  The gauge created by `NewGauge` has the value 0 and,
once registered, is collected on every scrape whether or not it was set. -/
abbrev Gauge (F : Type) := Option F

/-- The gauge returned by `prometheus.NewGauge`. -/
def Gauge.new {F : Type} : Gauge F := none

/-- The method `Set` of a gauge. -/
def Gauge.Set {F : Type} (_g : Gauge F) (v : F) : Gauge F := some v

/-- The value a gauge reports when collected. -/
def Gauge.value {F : Type} (m : Float64Model F) (g : Gauge F) : F :=
  match g with
  | none => m.zero
  | some v => v

/-- A `prometheus.GaugeVec` with the single label `denom`: its children, keyed
by the label value.  A vector without children contributes no sample. -/
abbrev GaugeVec (F : Type) := List (String × F)

/-- The vector returned by `prometheus.NewGaugeVec`. -/
def GaugeVec.new {F : Type} : GaugeVec F := []

/-- The call `vec.With(prometheus.Labels{"denom": label}).Set(v)`: the child
for `label` is created when missing and its value overwritten. -/
def GaugeVec.WithSet {F : Type} : GaugeVec F → String → F → GaugeVec F
  | [], label, v => [(label, v)]
  | (l, x) :: rest, label, v =>
    if l = label then (l, v) :: rest else (l, x) :: GaugeVec.WithSet rest label v

/-- The gauges created and registered at the start of `GeneralHandler`. -/
structure Accumulator (F : Type) where
  generalBondedTokensGauge : Gauge F
  generalNotBondedTokensGauge : Gauge F
  generalCommunityPoolGauge : GaugeVec F
  generalSupplyTotalGauge : GaugeVec F
  generalInflationGauge : Gauge F
  generalAnnualProvisions : GaugeVec F
  generalLatestBlockHeight : Gauge F
  generalTokenPrice : Gauge F
  paramsGovVotingPeriodProposals : Gauge F

/-- The accumulator right after registration, before any task has run. -/
def Accumulator.fresh {F : Type} : Accumulator F :=
  { generalBondedTokensGauge := Gauge.new
    generalNotBondedTokensGauge := Gauge.new
    generalCommunityPoolGauge := GaugeVec.new
    generalSupplyTotalGauge := GaugeVec.new
    generalInflationGauge := Gauge.new
    generalAnnualProvisions := GaugeVec.new
    generalLatestBlockHeight := Gauge.new
    generalTokenPrice := Gauge.new
    paramsGovVotingPeriodProposals := Gauge.new }

/-! ## The eight tasks -/

/-- Task 1: token price from the chain directory. -/
def priceTask {F : Type} (cfg : Config F) (up : Upstream F)
    (acc : Accumulator F) : Accumulator F :=
  match up.GetChainByChainID cfg.ChainID with
  | Except.error _ => acc
  | Except.ok chain =>
    { acc with generalTokenPrice := acc.generalTokenPrice.Set chain.priceUSD }

/-- Task 2: latest block height from the RPC status. -/
def blockHeightTask {F : Type} (m : Float64Model F) (up : Upstream F)
    (acc : Accumulator F) : Accumulator F :=
  match up.Status with
  | Except.error _ => acc
  | Except.ok status =>
    { acc with
      generalLatestBlockHeight :=
        acc.generalLatestBlockHeight.Set (m.ofInt status.LatestBlockHeight) }

/-- Task 3: bonded and not bonded tokens of the staking pool. -/
def stakingPoolTask {F : Type} (m : Float64Model F) (up : Upstream F)
    (acc : Accumulator F) : Accumulator F :=
  match up.Pool with
  | Except.error _ => acc
  | Except.ok pool =>
    let bondedTokens := m.ofInt pool.BondedTokens
    let notBondedTokens := m.ofInt pool.NotBondedTokens
    { acc with
      generalBondedTokensGauge := acc.generalBondedTokensGauge.Set bondedTokens
      generalNotBondedTokensGauge :=
        acc.generalNotBondedTokensGauge.Set notBondedTokens }

/-- The body of the `for _, coin := range ...` loops of the community pool and
total supply tasks: one coin. -/
def coinStep {F : Type} (m : Float64Model F) (cfg : Config F)
    (vec : GaugeVec F) (coin : Coin) : GaugeVec F :=
  match m.parseFloat coin.Amount with
  | none => vec
  | some value => vec.WithSet cfg.Denom (m.div value cfg.DenomCoefficient)

/-- The `for _, coin := range ...` loop over a collection response. -/
def coinLoop {F : Type} (m : Float64Model F) (cfg : Config F)
    (coins : List Coin) (vec : GaugeVec F) : GaugeVec F :=
  coins.foldl (coinStep m cfg) vec

/-- Task 4: distribution community pool. -/
def communityPoolTask {F : Type} (m : Float64Model F) (cfg : Config F)
    (up : Upstream F) (acc : Accumulator F) : Accumulator F :=
  match up.CommunityPool with
  | Except.error _ => acc
  | Except.ok pool =>
    { acc with
      generalCommunityPoolGauge := coinLoop m cfg pool acc.generalCommunityPoolGauge }

/-- Task 5: bank total supply. -/
def totalSupplyTask {F : Type} (m : Float64Model F) (cfg : Config F)
    (up : Upstream F) (acc : Accumulator F) : Accumulator F :=
  match up.TotalSupply with
  | Except.error _ => acc
  | Except.ok supply =>
    { acc with
      generalSupplyTotalGauge := coinLoop m cfg supply acc.generalSupplyTotalGauge }

/-- Task 6: mint inflation. -/
def inflationTask {F : Type} (m : Float64Model F) (up : Upstream F)
    (acc : Accumulator F) : Accumulator F :=
  match up.Inflation with
  | Except.error _ => acc
  | Except.ok inflation =>
    match m.parseFloat inflation with
    | none => acc
    | some value =>
      { acc with generalInflationGauge := acc.generalInflationGauge.Set value }

/-- Task 7: mint annual provisions. -/
def annualProvisionsTask {F : Type} (m : Float64Model F) (cfg : Config F)
    (up : Upstream F) (acc : Accumulator F) : Accumulator F :=
  match up.AnnualProvisions with
  | Except.error _ => acc
  | Except.ok provisions =>
    match m.parseFloat provisions with
    | none => acc
    | some value =>
      { acc with
        generalAnnualProvisions :=
          acc.generalAnnualProvisions.WithSet cfg.Denom
            (m.div value cfg.DenomCoefficient) }

/-- The value of `govCount` when the governance task sets its gauge. -/
def govCountOrSentinel (r : GovResult) : Int :=
  match r.err with
  | some _ => -1
  | none => r.count

/-- Task 8: proposals in voting period. -/
def govTask {F : Type} (m : Float64Model F) (up : Upstream F)
    (acc : Accumulator F) : Accumulator F :=
  let govCount := govCountOrSentinel (queryGovCount up.grpcConn)
  { acc with
    paramsGovVotingPeriodProposals :=
      acc.paramsGovVotingPeriodProposals.Set (m.ofInt govCount) }

/-- The eight goroutines of `GeneralHandler`. -/
inductive Task where
  | price
  | blockHeight
  | stakingPool
  | communityPool
  | totalSupply
  | inflation
  | annualProvisions
  | gov
deriving DecidableEq, Repr

/-- The tasks in the order the handler starts them. -/
def allTasks : List Task :=
  [Task.price, Task.blockHeight, Task.stakingPool, Task.communityPool,
   Task.totalSupply, Task.inflation, Task.annualProvisions, Task.gov]

/-- One task as a step on the accumulator. -/
def runTask {F : Type} (m : Float64Model F) (cfg : Config F) (up : Upstream F)
    (acc : Accumulator F) (t : Task) : Accumulator F :=
  match t with
  | Task.price => priceTask cfg up acc
  | Task.blockHeight => blockHeightTask m up acc
  | Task.stakingPool => stakingPoolTask m up acc
  | Task.communityPool => communityPoolTask m cfg up acc
  | Task.totalSupply => totalSupplyTask m cfg up acc
  | Task.inflation => inflationTask m up acc
  | Task.annualProvisions => annualProvisionsTask m cfg up acc
  | Task.gov => govTask m up acc

/-- Run a sequence of tasks from a given accumulator. -/
def runTasks {F : Type} (m : Float64Model F) (cfg : Config F) (up : Upstream F)
    (order : List Task) (acc : Accumulator F) : Accumulator F :=
  order.foldl (runTask m cfg up) acc

/-- The accumulator at `wg.Wait()`: all tasks have run on the fresh gauges. -/
def collect {F : Type} (m : Float64Model F) (cfg : Config F)
    (up : Upstream F) : Accumulator F :=
  runTasks m cfg up allTasks Accumulator.fresh

/-! ## Rendering -/

/-- The metric families registered by the handler. -/
inductive MetricName where
  | cosmos_general_annual_provisions
  | cosmos_general_bonded_tokens
  | cosmos_general_community_pool
  | cosmos_general_inflation
  | cosmos_general_not_bonded_tokens
  | cosmos_general_supply_total
  | cosmos_gov_voting_period_proposals
  | cosmos_latest_block_height
  | cosmos_token_price
deriving DecidableEq, Repr

/-- One sample of the exposition: metric, labels, value. -/
structure Sample (F : Type) where
  name : MetricName
  labels : List (String × String)
  value : F
deriving DecidableEq, Repr

/-- The sample of a registered scalar gauge. -/
def gaugeSamples {F : Type} (m : Float64Model F) (cfg : Config F)
    (name : MetricName) (g : Gauge F) : List (Sample F) :=
  [{ name := name, labels := cfg.ConstLabels, value := g.value m }]

/-- The samples of a gauge vector: one per child. -/
def gaugeVecSamples {F : Type} (cfg : Config F) (name : MetricName)
    (vec : GaugeVec F) : List (Sample F) :=
  vec.map fun child =>
    { name := name, labels := cfg.ConstLabels ++ [("denom", child.1)],
      value := child.2 }

/-- The snapshot gathered from the registry, metric families by name. -/
def render {F : Type} (m : Float64Model F) (cfg : Config F)
    (acc : Accumulator F) : List (Sample F) :=
  gaugeVecSamples cfg MetricName.cosmos_general_annual_provisions
      acc.generalAnnualProvisions
  ++ gaugeSamples m cfg MetricName.cosmos_general_bonded_tokens
      acc.generalBondedTokensGauge
  ++ gaugeVecSamples cfg MetricName.cosmos_general_community_pool
      acc.generalCommunityPoolGauge
  ++ gaugeSamples m cfg MetricName.cosmos_general_inflation
      acc.generalInflationGauge
  ++ gaugeSamples m cfg MetricName.cosmos_general_not_bonded_tokens
      acc.generalNotBondedTokensGauge
  ++ gaugeVecSamples cfg MetricName.cosmos_general_supply_total
      acc.generalSupplyTotalGauge
  ++ gaugeSamples m cfg MetricName.cosmos_gov_voting_period_proposals
      acc.paramsGovVotingPeriodProposals
  ++ gaugeSamples m cfg MetricName.cosmos_latest_block_height
      acc.generalLatestBlockHeight
  ++ gaugeSamples m cfg MetricName.cosmos_token_price
      acc.generalTokenPrice

/-- The HTTP response written by the handler. -/
structure Response (F : Type) where
  status : Nat
  body : List (Sample F)

/-- The handler `GeneralHandler` of `general.go`: run the tasks, wait for all
of them, serve the registry. -/
def GeneralHandler {F : Type} (m : Float64Model F) (cfg : Config F)
    (up : Upstream F) : Response F :=
  { status := 200, body := render m cfg (collect m cfg up) }

/-- The samples of one metric family in a snapshot. -/
def samplesOf {F : Type} (name : MetricName) (body : List (Sample F)) :
    List (Sample F) :=
  body.filter fun s => decide (s.name = name)

/-! ## An exact rational model and concrete upstreams -/

/-- The value of a non-empty string of decimal digits. -/
def digitsValue : List Char → Nat → Option Nat
  | [], acc => some acc
  | c :: cs, acc =>
    if c.isDigit then digitsValue cs (10 * acc + (c.toNat - 48)) else none

/-- An unsigned decimal `ddd`, `ddd.ddd`, `ddd.` or `.ddd`. -/
def parseUnsigned (cs : List Char) : Option ℚ :=
  let ip := cs.takeWhile fun c => c != '.'
  match cs.dropWhile fun c => c != '.' with
  | [] => if ip.isEmpty then none else (digitsValue ip 0).map fun n => (n : ℚ)
  | _ :: fp =>
    if ip.isEmpty && fp.isEmpty then none
    else
      match digitsValue ip 0, digitsValue fp 0 with
      | some i, some f => some ((i : ℚ) + (f : ℚ) / (10 : ℚ) ^ fp.length)
      | _, _ => none

/-- The decimal fragment of `strconv.ParseFloat`, with exact values: an
optional sign followed by an unsigned decimal. -/
def parseDecimal (s : String) : Option ℚ :=
  match s.data with
  | '-' :: cs => (parseUnsigned cs).map fun q => -q
  | '+' :: cs => parseUnsigned cs
  | cs => parseUnsigned cs

/-- The exact model: rational values, exact division, decimal parsing. -/
def ratModel : Float64Model ℚ :=
  { zero := 0
    ofInt := fun n => (n : ℚ)
    div := fun a b => a / b
    parseFloat := parseDecimal }

/-- A configuration with the coefficient `1e6`. -/
def sampleConfig : Config ℚ :=
  { ChainID := "cosmoshub-4"
    Denom := "atom"
    DenomCoefficient := 1000000
    ConstLabels := [("chain_id", "cosmoshub-4")] }

/-- A node that only speaks `gov/v1beta1`. -/
def olderConn : ClientConn :=
  { govv1beta1Proposals := fun _ => Except.ok [⟨11⟩, ⟨12⟩]
    govv1Proposals := fun _ => Except.error ⟨"unknown service cosmos.gov.v1.Query"⟩ }

/-- The error of a node whose proposals cannot be converted to `gov/v1beta1`. -/
def conversionError : Error :=
  ⟨"rpc error: code = Unknown desc = invalid type: can't convert a gov/v1 Proposal to gov/v1beta1 Proposal"⟩

/-- A node holding `gov/v1` proposals: the older call fails with the
conversion error, the newer one answers. -/
def newerConn : ClientConn :=
  { govv1beta1Proposals := fun _ => Except.error conversionError
    govv1Proposals := fun _ => Except.ok [⟨7⟩, ⟨8⟩, ⟨9⟩] }

/-- A node that cannot be reached. -/
def downConn : ClientConn :=
  { govv1beta1Proposals := fun _ => Except.error ⟨"connection refused"⟩
    govv1Proposals := fun _ => Except.ok [⟨1⟩] }

/-! ## Slots, outcomes of the queries -/

/-- The gauges read as one family of slots, by metric name. -/
def Accumulator.slot {F : Type} (acc : Accumulator F) :
    MetricName → Gauge F ⊕ GaugeVec F
  | MetricName.cosmos_general_annual_provisions => Sum.inr acc.generalAnnualProvisions
  | MetricName.cosmos_general_bonded_tokens => Sum.inl acc.generalBondedTokensGauge
  | MetricName.cosmos_general_community_pool => Sum.inr acc.generalCommunityPoolGauge
  | MetricName.cosmos_general_inflation => Sum.inl acc.generalInflationGauge
  | MetricName.cosmos_general_not_bonded_tokens => Sum.inl acc.generalNotBondedTokensGauge
  | MetricName.cosmos_general_supply_total => Sum.inr acc.generalSupplyTotalGauge
  | MetricName.cosmos_gov_voting_period_proposals =>
    Sum.inl acc.paramsGovVotingPeriodProposals
  | MetricName.cosmos_latest_block_height => Sum.inl acc.generalLatestBlockHeight
  | MetricName.cosmos_token_price => Sum.inl acc.generalTokenPrice

/-- The metric families whose gauges occur in the body of a task. -/
def gaugesOf : Task → List MetricName
  | Task.price => [MetricName.cosmos_token_price]
  | Task.blockHeight => [MetricName.cosmos_latest_block_height]
  | Task.stakingPool =>
    [MetricName.cosmos_general_bonded_tokens, MetricName.cosmos_general_not_bonded_tokens]
  | Task.communityPool => [MetricName.cosmos_general_community_pool]
  | Task.totalSupply => [MetricName.cosmos_general_supply_total]
  | Task.inflation => [MetricName.cosmos_general_inflation]
  | Task.annualProvisions => [MetricName.cosmos_general_annual_provisions]
  | Task.gov => [MetricName.cosmos_gov_voting_period_proposals]

/-- Whether a metric family is created with `NewGaugeVec` (labelled by
`denom`) rather than with `NewGauge`. -/
def isGaugeVec : MetricName → Bool
  | MetricName.cosmos_general_annual_provisions => true
  | MetricName.cosmos_general_community_pool => true
  | MetricName.cosmos_general_supply_total => true
  | _ => false

/-- Whether a call returned a nil error. -/
def isOk {ε α : Type} : Except ε α → Bool
  | Except.ok _ => true
  | Except.error _ => false

/-- Whether the upstream query of a task returned without error (for the
governance task: `queryGovCount` returned a nil error). -/
def querySucceeded {F : Type} (cfg : Config F) (up : Upstream F) : Task → Bool
  | Task.price => isOk (up.GetChainByChainID cfg.ChainID)
  | Task.blockHeight => isOk up.Status
  | Task.stakingPool => isOk up.Pool
  | Task.communityPool => isOk up.CommunityPool
  | Task.totalSupply => isOk up.TotalSupply
  | Task.inflation => isOk up.Inflation
  | Task.annualProvisions => isOk up.AnnualProvisions
  | Task.gov => (queryGovCount up.grpcConn).err.isNone

/-- Two upstreams give the same answer to the query of a task. -/
def sameAnswer {F : Type} (cfg : Config F) (up1 up2 : Upstream F) : Task → Prop
  | Task.price => up1.GetChainByChainID cfg.ChainID = up2.GetChainByChainID cfg.ChainID
  | Task.blockHeight => up1.Status = up2.Status
  | Task.stakingPool => up1.Pool = up2.Pool
  | Task.communityPool => up1.CommunityPool = up2.CommunityPool
  | Task.totalSupply => up1.TotalSupply = up2.TotalSupply
  | Task.inflation => up1.Inflation = up2.Inflation
  | Task.annualProvisions => up1.AnnualProvisions = up2.AnnualProvisions
  | Task.gov =>
    (queryGovCount up1.grpcConn).count = (queryGovCount up2.grpcConn).count
    ∧ (queryGovCount up1.grpcConn).err = (queryGovCount up2.grpcConn).err

/-- Whether a string fails to parse as a number. -/
def parseFails {F : Type} (m : Float64Model F) : Except Error String → Bool
  | Except.ok s => (m.parseFloat s).isNone
  | Except.error _ => false

/-- Whether a task takes one of its failure branches: its upstream call
returns an error or, for inflation and annual provisions, the returned value
fails to parse. -/
def taskFailed {F : Type} (m : Float64Model F) (cfg : Config F)
    (up : Upstream F) : Task → Bool
  | Task.inflation => !isOk up.Inflation || parseFails m up.Inflation
  | Task.annualProvisions => !isOk up.AnnualProvisions || parseFails m up.AnnualProvisions
  | t => !querySucceeded cfg up t

/-- An upstream where every query is answered. -/
def healthyUpstream : Upstream ℚ :=
  { GetChainByChainID := fun _ => Except.ok ⟨(9 : ℚ) / 2⟩
    Status := Except.ok ⟨18000000⟩
    Pool := Except.ok ⟨5000000, 250000⟩
    CommunityPool := Except.ok [⟨"uatom", "1000000"⟩, ⟨"uatom", "bad"⟩]
    TotalSupply := Except.ok [⟨"uatom", "3000000"⟩, ⟨"ibc/27394", "7500000"⟩]
    Inflation := Except.ok "0.125"
    AnnualProvisions := Except.ok "42000000.000000000000000000"
    grpcConn := newerConn }

/-- An upstream where the price directory, the staking pool, the mint
inflation and the governance queries fail, and the others answer as in
`healthyUpstream`. -/
def degradedUpstream : Upstream ℚ :=
  { healthyUpstream with
    GetChainByChainID := fun _ => Except.error ⟨"directory unreachable"⟩
    Pool := Except.error ⟨"rpc error: code = Unavailable"⟩
    Inflation := Except.error ⟨"rpc error: code = Unimplemented"⟩
    grpcConn := downConn }

/-- An upstream where every query fails. -/
def deadUpstream : Upstream ℚ :=
  { GetChainByChainID := fun _ => Except.error ⟨"directory unreachable"⟩
    Status := Except.error ⟨"connection refused"⟩
    Pool := Except.error ⟨"connection refused"⟩
    CommunityPool := Except.error ⟨"connection refused"⟩
    TotalSupply := Except.error ⟨"connection refused"⟩
    Inflation := Except.error ⟨"connection refused"⟩
    AnnualProvisions := Except.error ⟨"connection refused"⟩
    grpcConn := downConn }

/-- Two answers to a call that differ at most in the error they carry: the
same value, or an error on both sides. -/
def sameModuloError {α : Type} : Except Error α → Except Error α → Prop
  | Except.ok a, Except.ok b => a = b
  | Except.error _, Except.error _ => True
  | _, _ => False

/-- Two results of `queryGovCount` that differ at most in the error they
carry: an error on both sides, or no error and the same count. -/
def sameGovModuloError (r1 r2 : GovResult) : Prop :=
  match r1.err, r2.err with
  | some _, some _ => True
  | none, none => r1.count = r2.count
  | _, _ => False

/-- Two upstreams whose answers to the query of a task differ at most in the
error returned. -/
def sameOutcome {F : Type} (cfg : Config F) (up1 up2 : Upstream F) : Task → Prop
  | Task.price =>
    sameModuloError (up1.GetChainByChainID cfg.ChainID) (up2.GetChainByChainID cfg.ChainID)
  | Task.blockHeight => sameModuloError up1.Status up2.Status
  | Task.stakingPool => sameModuloError up1.Pool up2.Pool
  | Task.communityPool => sameModuloError up1.CommunityPool up2.CommunityPool
  | Task.totalSupply => sameModuloError up1.TotalSupply up2.TotalSupply
  | Task.inflation => sameModuloError up1.Inflation up2.Inflation
  | Task.annualProvisions => sameModuloError up1.AnnualProvisions up2.AnnualProvisions
  | Task.gov =>
    sameGovModuloError (queryGovCount up1.grpcConn) (queryGovCount up2.grpcConn)

/-- The upstream `degradedUpstream` with other errors on its failing queries
(and a node that fails on the second governance call instead of the first). -/
def degradedUpstreamOtherErrors : Upstream ℚ :=
  { degradedUpstream with
    GetChainByChainID := fun _ => Except.error ⟨"context deadline exceeded"⟩
    Pool := Except.error ⟨"rpc error: code = Internal"⟩
    Inflation := Except.error ⟨"EOF"⟩
    grpcConn :=
      { govv1beta1Proposals := fun _ => Except.error conversionError
        govv1Proposals := fun _ => Except.error ⟨"rpc error: code = Unavailable"⟩ } }

/-! ## Governance query: the three outcomes of the first call -/

/-- C2. When the `gov/v1beta1` call fails with an error whose message contains
the conversion text, `queryGovCount` issues the `gov/v1` call with the voting
period filter (after the `gov/v1beta1` one) and returns that call's outcome:
the number of proposals and no error when it succeeds, `0` and that call's
error when it fails. -/
theorem queryGovCount_conversion_error_falls_back (conn : ClientConn) (err : Error)
    (hcall : conn.govv1beta1Proposals ProposalStatus.StatusVotingPeriod = Except.error err)
    (htext : stringsContains err.msg
      "invalid type: can't convert a gov/v1 Proposal to gov/v1beta1 Proposal" = true) :
    (queryGovCount conn).calls =
        [GovCall.v1beta1Proposals ProposalStatus.StatusVotingPeriod,
         GovCall.v1Proposals ProposalStatus.StatusVotingPeriod]
    ∧ (∀ proposals : List Proposal,
        conn.govv1Proposals ProposalStatus.StatusVotingPeriod = Except.ok proposals →
        (queryGovCount conn).count = (proposals.length : Int)
        ∧ (queryGovCount conn).err = none)
    ∧ (∀ err2 : Error,
        conn.govv1Proposals ProposalStatus.StatusVotingPeriod = Except.error err2 →
        (queryGovCount conn).count = 0
        ∧ (queryGovCount conn).err = some err2) := by
  have htext2 : stringsContains err.msg conversionErrorText = true := htext
  unfold queryGovCount
  rw [hcall]
  simp only [htext2, Bool.not_true, Bool.false_eq_true, if_false]
  cases hv1 : conn.govv1Proposals ProposalStatus.StatusVotingPeriod with
  | error e =>
    refine ⟨rfl, ?_, ?_⟩
    · intro proposals h
      cases h
    · intro err2 h
      cases h
      exact ⟨rfl, rfl⟩
  | ok pp =>
    refine ⟨rfl, ?_, ?_⟩
    · intro proposals h
      cases h
      exact ⟨rfl, rfl⟩
    · intro err2 h
      cases h

/-- The fallback on a node holding `gov/v1` proposals: three proposals are
counted through the second call. -/
theorem queryGovCount_conversion_error_falls_back_witness :
    (queryGovCount newerConn).calls =
        [GovCall.v1beta1Proposals ProposalStatus.StatusVotingPeriod,
         GovCall.v1Proposals ProposalStatus.StatusVotingPeriod]
    ∧ (queryGovCount newerConn).count = 3
    ∧ (queryGovCount newerConn).err = none :=
  have h := queryGovCount_conversion_error_falls_back newerConn conversionError rfl
    (by decide)
  ⟨h.1, h.2.1 [⟨7⟩, ⟨8⟩, ⟨9⟩] rfl⟩

/-- C3. When the `gov/v1beta1` call fails with an error whose message does not
contain the conversion text, `queryGovCount` returns `0` and that same error,
and the only call it has issued is the `gov/v1beta1` one: no `gov/v1` call is
made, whatever its filter. -/
theorem queryGovCount_other_error_is_returned (conn : ClientConn) (err : Error)
    (hcall : conn.govv1beta1Proposals ProposalStatus.StatusVotingPeriod = Except.error err)
    (htext : stringsContains err.msg
      "invalid type: can't convert a gov/v1 Proposal to gov/v1beta1 Proposal" = false) :
    (queryGovCount conn).count = 0
    ∧ (queryGovCount conn).err = some err
    ∧ (queryGovCount conn).calls =
        [GovCall.v1beta1Proposals ProposalStatus.StatusVotingPeriod]
    ∧ ∀ status : ProposalStatus,
        GovCall.v1Proposals status ∉ (queryGovCount conn).calls := by
  have htext2 : stringsContains err.msg conversionErrorText = false := htext
  unfold queryGovCount
  rw [hcall]
  simp [htext2]

/-- An unreachable node: the connection error comes back and the second call,
which would have answered, is not made. -/
theorem queryGovCount_other_error_is_returned_witness :
    (queryGovCount downConn).count = 0
    ∧ (queryGovCount downConn).err = some ⟨"connection refused"⟩
    ∧ (queryGovCount downConn).calls =
        [GovCall.v1beta1Proposals ProposalStatus.StatusVotingPeriod]
    ∧ ∀ status : ProposalStatus,
        GovCall.v1Proposals status ∉ (queryGovCount downConn).calls :=
  queryGovCount_other_error_is_returned downConn ⟨"connection refused"⟩ rfl (by decide)

/-- C4. When the `gov/v1beta1` call succeeds, `queryGovCount` returns the
length of the proposal list with no error, and the only call it has issued is
the `gov/v1beta1` one. -/
theorem queryGovCount_older_schema_counts (conn : ClientConn)
    (proposals : List Proposal)
    (hcall : conn.govv1beta1Proposals ProposalStatus.StatusVotingPeriod
      = Except.ok proposals) :
    (queryGovCount conn).count = (proposals.length : Int)
    ∧ (queryGovCount conn).err = none
    ∧ (queryGovCount conn).calls =
        [GovCall.v1beta1Proposals ProposalStatus.StatusVotingPeriod]
    ∧ ∀ status : ProposalStatus,
        GovCall.v1Proposals status ∉ (queryGovCount conn).calls := by
  unfold queryGovCount
  rw [hcall]
  simp

/-- A node that answers the older schema with two proposals, and whose newer
service would fail. -/
theorem queryGovCount_older_schema_counts_witness :
    (queryGovCount olderConn).count = 2
    ∧ (queryGovCount olderConn).err = none
    ∧ (queryGovCount olderConn).calls =
        [GovCall.v1beta1Proposals ProposalStatus.StatusVotingPeriod]
    ∧ ∀ status : ProposalStatus,
        GovCall.v1Proposals status ∉ (queryGovCount olderConn).calls :=
  queryGovCount_older_schema_counts olderConn [⟨11⟩, ⟨12⟩] rfl

/-! ## Helper lemmas on the tasks and the snapshot -/

theorem runTask_comm {F : Type} (m : Float64Model F) (cfg : Config F)
    (up : Upstream F) (acc : Accumulator F) (t1 t2 : Task) :
    runTask m cfg up (runTask m cfg up acc t1) t2
      = runTask m cfg up (runTask m cfg up acc t2) t1 := by
  cases t1 <;> cases t2 <;>
    simp only [runTask, priceTask, blockHeightTask, stakingPoolTask, communityPoolTask,
      totalSupplyTask, inflationTask, annualProvisionsTask, govTask] <;>
    (repeat' split) <;> rfl

theorem runTask_frame {F : Type} (m : Float64Model F) (cfg : Config F)
    (up : Upstream F) (acc : Accumulator F) (t : Task) (g : MetricName)
    (hg : g ∉ gaugesOf t) :
    (runTask m cfg up acc t).slot g = acc.slot g := by
  cases t <;> cases g <;>
    simp only [runTask, priceTask, blockHeightTask, stakingPoolTask, communityPoolTask,
      totalSupplyTask, inflationTask, annualProvisionsTask, govTask] <;>
    (repeat' split) <;> first | rfl | (exfalso; revert hg; simp [gaugesOf])

theorem runTasks_frame {F : Type} (m : Float64Model F) (cfg : Config F)
    (up : Upstream F) (g : MetricName) (order : List Task) :
    ∀ acc : Accumulator F, (∀ t ∈ order, g ∉ gaugesOf t) →
      (runTasks m cfg up order acc).slot g = acc.slot g := by
  induction order with
  | nil => intro acc _; rfl
  | cons t rest ih =>
    intro acc h
    have h1 := ih (runTask m cfg up acc t) (fun t2 ht2 => h t2 (List.mem_cons_of_mem _ ht2))
    have h2 := runTask_frame m cfg up acc t g (h t (List.mem_cons_self _ _))
    simp only [runTasks, List.foldl_cons] at h1 ⊢
    rw [h1, h2]

theorem runTask_slot_local {F : Type} (m : Float64Model F) (cfg : Config F)
    (up : Upstream F) (acc1 acc2 : Accumulator F) (t : Task) (g : MetricName)
    (h : acc1.slot g = acc2.slot g) :
    (runTask m cfg up acc1 t).slot g = (runTask m cfg up acc2 t).slot g := by
  cases t <;> cases g <;>
    simp only [runTask, priceTask, blockHeightTask, stakingPoolTask, communityPoolTask,
      totalSupplyTask, inflationTask, annualProvisionsTask, govTask, Accumulator.slot,
      Gauge.Set] at h ⊢ <;>
    (repeat' split) <;> simp_all

theorem gaugesOf_disjoint (t1 t2 : Task) (g : MetricName) (hne : t1 ≠ t2)
    (h1 : g ∈ gaugesOf t1) : g ∉ gaugesOf t2 := by
  cases t1 <;> cases t2 <;> cases g <;> simp_all [gaugesOf]

theorem runTasks_slot {F : Type} (m : Float64Model F) (cfg : Config F)
    (up : Upstream F) (t : Task) (g : MetricName) (hg : g ∈ gaugesOf t)
    (order : List Task) :
    ∀ acc : Accumulator F, order.Nodup → t ∈ order →
      (runTasks m cfg up order acc).slot g = (runTask m cfg up acc t).slot g := by
  induction order with
  | nil => intro acc _ ht; cases ht
  | cons t0 rest ih =>
    intro acc hnd ht
    have hnd2 := List.nodup_cons.mp hnd
    by_cases h0 : t0 = t
    · subst h0
      have hrest : ∀ t2 ∈ rest, g ∉ gaugesOf t2 := by
        intro t2 ht2
        apply gaugesOf_disjoint t0 t2 g _ hg
        intro heq
        exact hnd2.1 (heq ▸ ht2)
      have h1 := runTasks_frame m cfg up g rest (runTask m cfg up acc t0) hrest
      simp only [runTasks, List.foldl_cons] at h1 ⊢
      exact h1
    · have hmem : t ∈ rest := by
        rcases List.mem_cons.mp ht with h | h
        · exact absurd h.symm h0
        · exact h
      have h1 := ih (runTask m cfg up acc t0) hnd2.2 hmem
      have h2 := runTask_frame m cfg up acc t0 g (gaugesOf_disjoint t t0 g (Ne.symm h0) hg)
      have h3 := runTask_slot_local m cfg up _ _ t g h2
      simp only [runTasks, List.foldl_cons] at h1 ⊢
      rw [h1, h3]

theorem allTasks_nodup : allTasks.Nodup := by decide

theorem mem_allTasks (t : Task) : t ∈ allTasks := by
  cases t <;> decide

theorem collect_slot {F : Type} (m : Float64Model F) (cfg : Config F)
    (up : Upstream F) (t : Task) (g : MetricName) (hg : g ∈ gaugesOf t) :
    (collect m cfg up).slot g = (runTask m cfg up Accumulator.fresh t).slot g :=
  runTasks_slot m cfg up t g hg allTasks Accumulator.fresh allTasks_nodup (mem_allTasks t)

theorem samplesOf_render {F : Type} (m : Float64Model F) (cfg : Config F)
    (acc : Accumulator F) (g : MetricName) :
    samplesOf g (render m cfg acc) =
      match acc.slot g with
      | Sum.inl gauge => gaugeSamples m cfg g gauge
      | Sum.inr vec => gaugeVecSamples cfg g vec := by
  cases g <;>
    simp [samplesOf, render, gaugeSamples, gaugeVecSamples, Accumulator.slot,
      List.filter_append, List.filter_map, Function.comp_def]

theorem runTask_sameAnswer {F : Type} (m : Float64Model F) (cfg : Config F)
    (up1 up2 : Upstream F) (acc : Accumulator F) (t : Task)
    (h : sameAnswer cfg up1 up2 t) :
    runTask m cfg up1 acc t = runTask m cfg up2 acc t := by
  cases t <;>
    simp only [sameAnswer] at h <;>
    simp only [runTask, priceTask, blockHeightTask, stakingPoolTask, communityPoolTask,
      totalSupplyTask, inflationTask, annualProvisionsTask, govTask, govCountOrSentinel]
  case gov => rw [h.1, h.2]
  all_goals rw [h]

theorem WithSet_WithSet {F : Type} (vec : GaugeVec F) (label : String) (a b : F) :
    (vec.WithSet label a).WithSet label b = vec.WithSet label b := by
  induction vec with
  | nil => simp [GaugeVec.WithSet]
  | cons hd tl ih =>
    obtain ⟨l, x⟩ := hd
    by_cases h : l = label
    · simp [GaugeVec.WithSet, h]
    · simp [GaugeVec.WithSet, h, ih]

theorem coinLoop_append {F : Type} (m : Float64Model F) (cfg : Config F)
    (pre post : List Coin) (vec : GaugeVec F) :
    coinLoop m cfg (pre ++ post) vec = coinLoop m cfg post (coinLoop m cfg pre vec) := by
  simp [coinLoop, List.foldl_append]

theorem coinLoop_closed {F : Type} (m : Float64Model F) (cfg : Config F)
    (coins : List Coin) (vec : GaugeVec F) :
    coinLoop m cfg coins vec =
      match (coins.filterMap fun c => m.parseFloat c.Amount).getLast? with
      | none => vec
      | some v => vec.WithSet cfg.Denom (m.div v cfg.DenomCoefficient) := by
  induction coins using List.reverseRecOn with
  | nil => rfl
  | append_singleton l c ih =>
    rw [coinLoop_append, ih, List.filterMap_append]
    cases hp : m.parseFloat c.Amount with
    | none => simp [coinLoop, coinStep, hp]
    | some v =>
      simp only [coinLoop, List.foldl_cons, List.foldl_nil, coinStep, hp, List.filterMap_cons,
        List.filterMap_nil, List.getLast?_append, List.getLast?_singleton]
      split <;> simp [WithSet_WithSet]

theorem collect_fields {F : Type} (m : Float64Model F) (cfg : Config F) (up : Upstream F) :
    (collect m cfg up).generalTokenPrice = (priceTask cfg up Accumulator.fresh).generalTokenPrice
    ∧ (collect m cfg up).generalLatestBlockHeight
        = (blockHeightTask m up Accumulator.fresh).generalLatestBlockHeight
    ∧ (collect m cfg up).generalBondedTokensGauge
        = (stakingPoolTask m up Accumulator.fresh).generalBondedTokensGauge
    ∧ (collect m cfg up).generalNotBondedTokensGauge
        = (stakingPoolTask m up Accumulator.fresh).generalNotBondedTokensGauge
    ∧ (collect m cfg up).generalCommunityPoolGauge
        = (communityPoolTask m cfg up Accumulator.fresh).generalCommunityPoolGauge
    ∧ (collect m cfg up).generalSupplyTotalGauge
        = (totalSupplyTask m cfg up Accumulator.fresh).generalSupplyTotalGauge
    ∧ (collect m cfg up).generalInflationGauge
        = (inflationTask m up Accumulator.fresh).generalInflationGauge
    ∧ (collect m cfg up).generalAnnualProvisions
        = (annualProvisionsTask m cfg up Accumulator.fresh).generalAnnualProvisions
    ∧ (collect m cfg up).paramsGovVotingPeriodProposals
        = (govTask m up Accumulator.fresh).paramsGovVotingPeriodProposals := by
  have h1 := collect_slot m cfg up Task.price MetricName.cosmos_token_price (by simp [gaugesOf])
  have h2 := collect_slot m cfg up Task.blockHeight MetricName.cosmos_latest_block_height
    (by simp [gaugesOf])
  have h3 := collect_slot m cfg up Task.stakingPool MetricName.cosmos_general_bonded_tokens
    (by simp [gaugesOf])
  have h4 := collect_slot m cfg up Task.stakingPool MetricName.cosmos_general_not_bonded_tokens
    (by simp [gaugesOf])
  have h5 := collect_slot m cfg up Task.communityPool MetricName.cosmos_general_community_pool
    (by simp [gaugesOf])
  have h6 := collect_slot m cfg up Task.totalSupply MetricName.cosmos_general_supply_total
    (by simp [gaugesOf])
  have h7 := collect_slot m cfg up Task.inflation MetricName.cosmos_general_inflation
    (by simp [gaugesOf])
  have h8 := collect_slot m cfg up Task.annualProvisions
    MetricName.cosmos_general_annual_provisions (by simp [gaugesOf])
  have h9 := collect_slot m cfg up Task.gov MetricName.cosmos_gov_voting_period_proposals
    (by simp [gaugesOf])
  simp only [Accumulator.slot, runTask, Sum.inl.injEq, Sum.inr.injEq] at h1 h2 h3 h4 h5 h6 h7 h8 h9
  exact ⟨h1, h2, h3, h4, h5, h6, h7, h8, h9⟩

theorem coinLoop_fresh {F : Type} (m : Float64Model F) (cfg : Config F)
    (coins : List Coin) :
    coinLoop m cfg coins [] =
      (match (coins.filterMap fun c => m.parseFloat c.Amount).getLast? with
       | none => []
       | some v => [(cfg.Denom, m.div v cfg.DenomCoefficient)]) := by
  rw [coinLoop_closed]
  split <;> rfl

theorem runTask_sameOutcome {F : Type} (m : Float64Model F) (cfg : Config F)
    (up1 up2 : Upstream F) (acc : Accumulator F) (t : Task)
    (h : sameOutcome cfg up1 up2 t) :
    runTask m cfg up1 acc t = runTask m cfg up2 acc t := by
  cases t
  case gov =>
    simp only [sameOutcome, sameGovModuloError] at h
    simp only [runTask, govTask, govCountOrSentinel]
    cases h1 : (queryGovCount up1.grpcConn).err <;>
      cases h2 : (queryGovCount up2.grpcConn).err <;>
      simp_all
  case price =>
    simp only [sameOutcome] at h
    simp only [runTask, priceTask]
    cases h1 : up1.GetChainByChainID cfg.ChainID <;>
      cases h2 : up2.GetChainByChainID cfg.ChainID <;>
      simp_all [sameModuloError]
  case blockHeight =>
    simp only [sameOutcome] at h
    simp only [runTask, blockHeightTask]
    cases h1 : up1.Status <;> cases h2 : up2.Status <;> simp_all [sameModuloError]
  case stakingPool =>
    simp only [sameOutcome] at h
    simp only [runTask, stakingPoolTask]
    cases h1 : up1.Pool <;> cases h2 : up2.Pool <;> simp_all [sameModuloError]
  case communityPool =>
    simp only [sameOutcome] at h
    simp only [runTask, communityPoolTask]
    cases h1 : up1.CommunityPool <;> cases h2 : up2.CommunityPool <;>
      simp_all [sameModuloError]
  case totalSupply =>
    simp only [sameOutcome] at h
    simp only [runTask, totalSupplyTask]
    cases h1 : up1.TotalSupply <;> cases h2 : up2.TotalSupply <;>
      simp_all [sameModuloError]
  case inflation =>
    simp only [sameOutcome] at h
    simp only [runTask, inflationTask]
    cases h1 : up1.Inflation <;> cases h2 : up2.Inflation <;> simp_all [sameModuloError]
  case annualProvisions =>
    simp only [sameOutcome] at h
    simp only [runTask, annualProvisionsTask]
    cases h1 : up1.AnnualProvisions <;> cases h2 : up2.AnnualProvisions <;>
      simp_all [sameModuloError]

/-! ## The scrape under partial failure -/

/-- C1. Each of the eight upstream queries either returns a value or an
error.  For every upstream `up`, whatever the combination of failing and
succeeding queries:
* the handler answers 200 with a rendered snapshot;
* each gauge whose own query succeeded has its samples in that snapshot, with
  the value computed from the answer of that query alone: the price, the block
  height, the two pool amounts, the last parsable amount of a collection over
  the coefficient, the parsed inflation, the parsed provisions over the
  coefficient, the proposal count;
* hence on every upstream `upAll` that answers the queries that succeeded on
  `up` as `up` does, in particular one on which all eight queries succeed, the
  gauges of those queries have the same samples as on `up`, and each such
  sample of the snapshot of `upAll` is in the snapshot of `up`;
* the response does not depend on the errors: an upstream that fails on the
  same queries with other errors gets the same response. -/
theorem GeneralHandler_partial_failure {F : Type} (m : Float64Model F)
    (cfg : Config F) (up : Upstream F) :
    (GeneralHandler m cfg up).status = 200
    ∧ (∀ chain : Chain F, up.GetChainByChainID cfg.ChainID = Except.ok chain →
        samplesOf MetricName.cosmos_token_price (GeneralHandler m cfg up).body
          = [{ name := MetricName.cosmos_token_price, labels := cfg.ConstLabels,
               value := chain.priceUSD }])
    ∧ (∀ status : ResultStatus, up.Status = Except.ok status →
        samplesOf MetricName.cosmos_latest_block_height (GeneralHandler m cfg up).body
          = [{ name := MetricName.cosmos_latest_block_height, labels := cfg.ConstLabels,
               value := m.ofInt status.LatestBlockHeight }])
    ∧ (∀ pool : Pool, up.Pool = Except.ok pool →
        samplesOf MetricName.cosmos_general_bonded_tokens (GeneralHandler m cfg up).body
          = [{ name := MetricName.cosmos_general_bonded_tokens, labels := cfg.ConstLabels,
               value := m.ofInt pool.BondedTokens }]
        ∧ samplesOf MetricName.cosmos_general_not_bonded_tokens
            (GeneralHandler m cfg up).body
          = [{ name := MetricName.cosmos_general_not_bonded_tokens,
               labels := cfg.ConstLabels, value := m.ofInt pool.NotBondedTokens }])
    ∧ (∀ coins : List Coin, up.CommunityPool = Except.ok coins →
        samplesOf MetricName.cosmos_general_community_pool (GeneralHandler m cfg up).body
          = (match (coins.filterMap fun c => m.parseFloat c.Amount).getLast? with
             | none => []
             | some v =>
               [{ name := MetricName.cosmos_general_community_pool,
                  labels := cfg.ConstLabels ++ [("denom", cfg.Denom)],
                  value := m.div v cfg.DenomCoefficient }]))
    ∧ (∀ coins : List Coin, up.TotalSupply = Except.ok coins →
        samplesOf MetricName.cosmos_general_supply_total (GeneralHandler m cfg up).body
          = (match (coins.filterMap fun c => m.parseFloat c.Amount).getLast? with
             | none => []
             | some v =>
               [{ name := MetricName.cosmos_general_supply_total,
                  labels := cfg.ConstLabels ++ [("denom", cfg.Denom)],
                  value := m.div v cfg.DenomCoefficient }]))
    ∧ (∀ inflation : String, up.Inflation = Except.ok inflation →
        samplesOf MetricName.cosmos_general_inflation (GeneralHandler m cfg up).body
          = [{ name := MetricName.cosmos_general_inflation, labels := cfg.ConstLabels,
               value := (match m.parseFloat inflation with
                         | some v => v
                         | none => m.zero) }])
    ∧ (∀ provisions : String, up.AnnualProvisions = Except.ok provisions →
        samplesOf MetricName.cosmos_general_annual_provisions
            (GeneralHandler m cfg up).body
          = (match m.parseFloat provisions with
             | none => []
             | some v =>
               [{ name := MetricName.cosmos_general_annual_provisions,
                  labels := cfg.ConstLabels ++ [("denom", cfg.Denom)],
                  value := m.div v cfg.DenomCoefficient }]))
    ∧ ((queryGovCount up.grpcConn).err = none →
        samplesOf MetricName.cosmos_gov_voting_period_proposals
            (GeneralHandler m cfg up).body
          = [{ name := MetricName.cosmos_gov_voting_period_proposals,
               labels := cfg.ConstLabels,
               value := m.ofInt (queryGovCount up.grpcConn).count }])
    ∧ (∀ upAll : Upstream F,
        (∀ t : Task, querySucceeded cfg up t = true → sameAnswer cfg up upAll t) →
        ∀ t : Task, querySucceeded cfg up t = true → ∀ g ∈ gaugesOf t,
          samplesOf g (GeneralHandler m cfg up).body
            = samplesOf g (GeneralHandler m cfg upAll).body
          ∧ ∀ s ∈ (GeneralHandler m cfg upAll).body, s.name = g →
              s ∈ (GeneralHandler m cfg up).body)
    ∧ (∀ up2 : Upstream F, (∀ t : Task, sameOutcome cfg up up2 t) →
        GeneralHandler m cfg up = GeneralHandler m cfg up2) := by
  have hf := collect_fields m cfg up
  refine ⟨rfl, ?_, ?_, ?_, ?_, ?_, ?_, ?_, ?_, ?_, ?_⟩
  · intro chain h
    simp only [GeneralHandler]
    rw [samplesOf_render]
    simp only [Accumulator.slot, hf.1, priceTask, h, Gauge.Set, gaugeSamples, Gauge.value]
  · intro status h
    simp only [GeneralHandler]
    rw [samplesOf_render]
    simp only [Accumulator.slot, hf.2.1, blockHeightTask, h, Gauge.Set, gaugeSamples,
      Gauge.value]
  · intro pool h
    simp only [GeneralHandler]
    rw [samplesOf_render, samplesOf_render]
    simp only [Accumulator.slot, hf.2.2.1, hf.2.2.2.1, stakingPoolTask, h, Gauge.Set,
      gaugeSamples, Gauge.value, and_self]
  · intro coins h
    simp only [GeneralHandler]
    rw [samplesOf_render]
    simp only [Accumulator.slot, hf.2.2.2.2.1, communityPoolTask, h, Accumulator.fresh,
      GaugeVec.new, coinLoop_fresh, gaugeVecSamples]
    split <;> simp
  · intro coins h
    simp only [GeneralHandler]
    rw [samplesOf_render]
    simp only [Accumulator.slot, hf.2.2.2.2.2.1, totalSupplyTask, h, Accumulator.fresh,
      GaugeVec.new, coinLoop_fresh, gaugeVecSamples]
    split <;> simp
  · intro inflation h
    simp only [GeneralHandler]
    rw [samplesOf_render]
    simp only [Accumulator.slot, hf.2.2.2.2.2.2.1, inflationTask, h, Accumulator.fresh,
      Gauge.new, Gauge.Set, gaugeSamples, Gauge.value]
    cases hp : m.parseFloat inflation <;> rfl
  · intro provisions h
    simp only [GeneralHandler]
    rw [samplesOf_render]
    simp only [Accumulator.slot, hf.2.2.2.2.2.2.2.1, annualProvisionsTask, h,
      Accumulator.fresh, GaugeVec.new, gaugeVecSamples]
    cases hp : m.parseFloat provisions <;> simp [GaugeVec.WithSet]
  · intro herr
    simp only [GeneralHandler]
    rw [samplesOf_render]
    simp only [Accumulator.slot, hf.2.2.2.2.2.2.2.2, govTask, Gauge.Set, gaugeSamples,
      Gauge.value, govCountOrSentinel, herr]
  · intro upAll hsame t ht g hg
    have key : samplesOf g (GeneralHandler m cfg up).body
        = samplesOf g (GeneralHandler m cfg upAll).body := by
      simp only [GeneralHandler]
      rw [samplesOf_render, samplesOf_render, collect_slot m cfg up t g hg,
        collect_slot m cfg upAll t g hg,
        runTask_sameAnswer m cfg up upAll _ t (hsame t ht)]
    refine ⟨key, ?_⟩
    intro s hs hname
    have hmem : s ∈ samplesOf g (GeneralHandler m cfg upAll).body := by
      simp [samplesOf, hs, hname]
    rw [← key] at hmem
    exact (List.mem_filter.mp hmem).1
  · intro up2 hsame
    have hfun : runTask m cfg up = runTask m cfg up2 := by
      funext acc t
      exact runTask_sameOutcome m cfg up up2 acc t (hsame t)
    simp only [GeneralHandler, collect, runTasks, hfun]

/-- Four of the eight queries fail.  The block height, whose query succeeded,
is rendered with its value, as on the healthy upstream, and the response is
the one obtained when the same queries fail with other errors. -/
theorem GeneralHandler_partial_failure_witness :
    (GeneralHandler ratModel sampleConfig degradedUpstream).status = 200
    ∧ samplesOf MetricName.cosmos_latest_block_height
        (GeneralHandler ratModel sampleConfig degradedUpstream).body
      = [{ name := MetricName.cosmos_latest_block_height,
           labels := [("chain_id", "cosmoshub-4")], value := ratModel.ofInt 18000000 }]
    ∧ samplesOf MetricName.cosmos_latest_block_height
        (GeneralHandler ratModel sampleConfig degradedUpstream).body
      = samplesOf MetricName.cosmos_latest_block_height
        (GeneralHandler ratModel sampleConfig healthyUpstream).body
    ∧ GeneralHandler ratModel sampleConfig degradedUpstream
      = GeneralHandler ratModel sampleConfig degradedUpstreamOtherErrors :=
  have h := GeneralHandler_partial_failure ratModel sampleConfig degradedUpstream
  ⟨h.1, h.2.2.1 ⟨18000000⟩ rfl,
    (h.2.2.2.2.2.2.2.2.2.1 healthyUpstream
      (by intro t ht; cases t <;> first | rfl | exact absurd ht (by decide))
      Task.blockHeight (by decide) MetricName.cosmos_latest_block_height (by decide)).1,
    h.2.2.2.2.2.2.2.2.2.2 degradedUpstreamOtherErrors
      (by intro t; cases t <;> first | exact trivial | rfl)⟩

/-! ## The proposal count gauge -/

/-- C5. When `queryGovCount` returns an error (from the first call with an
error that does not trigger the fallback, or from the second call after the
fallback), the sample of `cosmos_gov_voting_period_proposals` in the rendered
snapshot has the value `float64(-1)`; when it returns no error the sample has
the value of the returned count. -/
theorem gov_gauge_sentinel {F : Type} (m : Float64Model F) (cfg : Config F)
    (up : Upstream F) :
    ((queryGovCount up.grpcConn).err ≠ none →
      samplesOf MetricName.cosmos_gov_voting_period_proposals
          (GeneralHandler m cfg up).body
        = [{ name := MetricName.cosmos_gov_voting_period_proposals,
             labels := cfg.ConstLabels, value := m.ofInt (-1) }])
    ∧ ((queryGovCount up.grpcConn).err = none →
      samplesOf MetricName.cosmos_gov_voting_period_proposals
          (GeneralHandler m cfg up).body
        = [{ name := MetricName.cosmos_gov_voting_period_proposals,
             labels := cfg.ConstLabels,
             value := m.ofInt (queryGovCount up.grpcConn).count }]) := by
  have hf := (collect_fields m cfg up).2.2.2.2.2.2.2.2
  constructor
  · intro herr
    simp only [GeneralHandler]
    rw [samplesOf_render]
    simp only [Accumulator.slot, hf, govTask, Gauge.Set, gaugeSamples, Gauge.value,
      govCountOrSentinel]
    cases h : (queryGovCount up.grpcConn).err with
    | none => exact absurd h herr
    | some e => rfl
  · intro herr
    simp only [GeneralHandler]
    rw [samplesOf_render]
    simp only [Accumulator.slot, hf, govTask, Gauge.Set, gaugeSamples, Gauge.value,
      govCountOrSentinel, herr]

/-- An unreachable node gives the sentinel, a node that answers through the
fallback gives its three proposals. -/
theorem gov_gauge_sentinel_witness :
    samplesOf MetricName.cosmos_gov_voting_period_proposals
        (GeneralHandler ratModel sampleConfig degradedUpstream).body
      = [{ name := MetricName.cosmos_gov_voting_period_proposals,
           labels := [("chain_id", "cosmoshub-4")], value := ratModel.ofInt (-1) }]
    ∧ samplesOf MetricName.cosmos_gov_voting_period_proposals
        (GeneralHandler ratModel sampleConfig healthyUpstream).body
      = [{ name := MetricName.cosmos_gov_voting_period_proposals,
           labels := [("chain_id", "cosmoshub-4")], value := ratModel.ofInt 3 }] :=
  ⟨(gov_gauge_sentinel ratModel sampleConfig degradedUpstream).1 (by decide),
   (gov_gauge_sentinel ratModel sampleConfig healthyUpstream).2 (by decide)⟩

/-! ## Order of the tasks -/

/-- C9. With each task a step on the accumulator: a slot that one task can
change is left unchanged by every other task, on every upstream and
accumulator; and for fixed upstream results, running the eight tasks in any
order that is a permutation of the source order gives the same final
accumulator, hence the same rendered snapshot. -/
theorem tasks_order_independent {F : Type} (m : Float64Model F) (cfg : Config F)
    (up : Upstream F) (order : List Task) (hperm : order.Perm allTasks) :
    (∀ (t1 t2 : Task) (g : MetricName), t1 ≠ t2 →
      (∃ (up1 : Upstream F) (acc1 : Accumulator F),
        (runTask m cfg up1 acc1 t1).slot g ≠ acc1.slot g) →
      ∀ (up2 : Upstream F) (acc2 : Accumulator F),
        (runTask m cfg up2 acc2 t2).slot g = acc2.slot g)
    ∧ (∀ acc : Accumulator F,
        runTasks m cfg up order acc = runTasks m cfg up allTasks acc)
    ∧ render m cfg (runTasks m cfg up order Accumulator.fresh)
        = (GeneralHandler m cfg up).body := by
  have hfold : ∀ acc : Accumulator F,
      runTasks m cfg up order acc = runTasks m cfg up allTasks acc := by
    intro acc
    exact List.Perm.foldl_eq' hperm
      (fun x _ y _ z => runTask_comm m cfg up z x y) acc
  refine ⟨?_, hfold, ?_⟩
  · intro t1 t2 g hne hchange up2 acc2
    apply runTask_frame
    apply gaugesOf_disjoint t1 t2 g hne
    by_contra hnot
    obtain ⟨up1, acc1, h⟩ := hchange
    exact h (runTask_frame m cfg up1 acc1 t1 g hnot)
  · rw [hfold]
    rfl

/-- The tasks run in the reverse of the source order. -/
theorem tasks_order_independent_witness :
    runTasks ratModel sampleConfig degradedUpstream
        [Task.gov, Task.annualProvisions, Task.inflation, Task.totalSupply,
         Task.communityPool, Task.stakingPool, Task.blockHeight, Task.price]
        Accumulator.fresh
      = runTasks ratModel sampleConfig degradedUpstream allTasks Accumulator.fresh :=
  (tasks_order_independent ratModel sampleConfig degradedUpstream
    [Task.gov, Task.annualProvisions, Task.inflation, Task.totalSupply,
     Task.communityPool, Task.stakingPool, Task.blockHeight, Task.price]
    (List.reverse_perm allTasks)).2.1 Accumulator.fresh

/-! ## Collection responses -/

/-- C6. In the community pool and total supply tasks, an entry whose amount
fails to parse is skipped and the loop goes on: with the response
`pre ++ bad :: post` the gauge vector is the one obtained by running the loop
on `pre` and then on `post`.  The response
`[("uatom","1000000"), ("uatom","bad")]` leaves exactly one child in the
community pool vector, holding the parsed `1000000` divided by the coefficient;
with exact values and the coefficient `1e6` that child, and the one sample of
the snapshot, have the value 1. -/
theorem malformed_entry_is_skipped :
    (∀ (F : Type) (m : Float64Model F) (cfg : Config F) (up : Upstream F)
        (acc : Accumulator F) (pre post : List Coin) (bad : Coin),
        m.parseFloat bad.Amount = none →
        (up.CommunityPool = Except.ok (pre ++ bad :: post) →
          (communityPoolTask m cfg up acc).generalCommunityPoolGauge
            = coinLoop m cfg post (coinLoop m cfg pre acc.generalCommunityPoolGauge))
        ∧ (up.TotalSupply = Except.ok (pre ++ bad :: post) →
          (totalSupplyTask m cfg up acc).generalSupplyTotalGauge
            = coinLoop m cfg post (coinLoop m cfg pre acc.generalSupplyTotalGauge)))
    ∧ (∀ (F : Type) (m : Float64Model F) (cfg : Config F) (up : Upstream F) (value : F),
        m.parseFloat "1000000" = some value → m.parseFloat "bad" = none →
        up.CommunityPool = Except.ok [⟨"uatom", "1000000"⟩, ⟨"uatom", "bad"⟩] →
        (collect m cfg up).generalCommunityPoolGauge
          = [(cfg.Denom, m.div value cfg.DenomCoefficient)])
    ∧ (∀ (cfg : Config ℚ) (up : Upstream ℚ), cfg.DenomCoefficient = 1000000 →
        up.CommunityPool = Except.ok [⟨"uatom", "1000000"⟩, ⟨"uatom", "bad"⟩] →
        (collect ratModel cfg up).generalCommunityPoolGauge = [(cfg.Denom, 1)]
        ∧ samplesOf MetricName.cosmos_general_community_pool
            (GeneralHandler ratModel cfg up).body
          = [{ name := MetricName.cosmos_general_community_pool,
               labels := cfg.ConstLabels ++ [("denom", cfg.Denom)], value := 1 }]) := by
  refine ⟨?_, ?_, ?_⟩
  · intro F m cfg up acc pre post bad hbad
    have hskip : ∀ vec : GaugeVec F,
        coinLoop m cfg (pre ++ bad :: post) vec
          = coinLoop m cfg post (coinLoop m cfg pre vec) := by
      intro vec
      rw [coinLoop_append]
      simp [coinLoop, coinStep, hbad]
    constructor
    · intro h
      simp only [communityPoolTask, h]
      exact hskip _
    · intro h
      simp only [totalSupplyTask, h]
      exact hskip _
  · intro F m cfg up value hp1 hp2 hresp
    rw [(collect_fields m cfg up).2.2.2.2.1]
    simp only [communityPoolTask, hresp, coinLoop, List.foldl_cons, List.foldl_nil, coinStep,
      hp1, hp2, Accumulator.fresh, GaugeVec.new, GaugeVec.WithSet]
  · intro cfg up hcoef hresp
    have hf := (collect_fields ratModel cfg up).2.2.2.2.1
    have hp1 : ratModel.parseFloat "1000000" = some 1000000 := by decide
    have hp2 : ratModel.parseFloat "bad" = none := by decide
    have hvec : (collect ratModel cfg up).generalCommunityPoolGauge = [(cfg.Denom, 1)] := by
      rw [hf]
      simp only [communityPoolTask, hresp, coinLoop, List.foldl_cons, List.foldl_nil, coinStep,
        hp1, hp2, Accumulator.fresh, GaugeVec.new, GaugeVec.WithSet, hcoef]
      simp [ratModel]
    refine ⟨hvec, ?_⟩
    simp only [GeneralHandler]
    rw [samplesOf_render]
    simp only [Accumulator.slot, hvec, gaugeVecSamples, List.map_cons, List.map_nil]

/-- A malformed entry between two well-formed ones, and the response of the
example on the healthy upstream. -/
theorem malformed_entry_is_skipped_witness :
    (communityPoolTask ratModel sampleConfig
        { healthyUpstream with
          CommunityPool :=
            Except.ok ([⟨"uatom", "1000000"⟩] ++ ⟨"uatom", "bad"⟩ :: [⟨"uatom", "2500000"⟩]) }
        Accumulator.fresh).generalCommunityPoolGauge
      = coinLoop ratModel sampleConfig [⟨"uatom", "2500000"⟩]
          (coinLoop ratModel sampleConfig [⟨"uatom", "1000000"⟩] GaugeVec.new)
    ∧ (collect ratModel sampleConfig healthyUpstream).generalCommunityPoolGauge
      = [("atom", 1)] :=
  ⟨(malformed_entry_is_skipped.1 ℚ ratModel sampleConfig _ Accumulator.fresh
      [⟨"uatom", "1000000"⟩] [⟨"uatom", "2500000"⟩] ⟨"uatom", "bad"⟩ (by decide)).1 rfl,
   (malformed_entry_is_skipped.2.2 sampleConfig healthyUpstream rfl rfl).1⟩

/-- C10. Every entry of a collection response is written under the one label
value `Denom`, so after a scrape the community pool vector (and likewise the
total supply vector) has at most one child.  For a response `coins`, the child
holds the last parsable entry's amount divided by `DenomCoefficient`, whatever
the denoms of the entries, earlier entries being overwritten; the vector is
empty exactly when no entry parses; and the snapshot has the matching
samples. -/
theorem collection_gauge_holds_last_entry {F : Type} (m : Float64Model F)
    (cfg : Config F) (up : Upstream F) :
    (collect m cfg up).generalCommunityPoolGauge.length ≤ 1
    ∧ (collect m cfg up).generalSupplyTotalGauge.length ≤ 1
    ∧ (∀ coins : List Coin, up.CommunityPool = Except.ok coins →
        (collect m cfg up).generalCommunityPoolGauge
          = (match (coins.filterMap fun c => m.parseFloat c.Amount).getLast? with
             | none => []
             | some v => [(cfg.Denom, m.div v cfg.DenomCoefficient)])
        ∧ ((collect m cfg up).generalCommunityPoolGauge = []
            ↔ ∀ c ∈ coins, m.parseFloat c.Amount = none)
        ∧ samplesOf MetricName.cosmos_general_community_pool
            (GeneralHandler m cfg up).body
          = (match (coins.filterMap fun c => m.parseFloat c.Amount).getLast? with
             | none => []
             | some v =>
               [{ name := MetricName.cosmos_general_community_pool,
                  labels := cfg.ConstLabels ++ [("denom", cfg.Denom)],
                  value := m.div v cfg.DenomCoefficient }]))
    ∧ (∀ coins : List Coin, up.TotalSupply = Except.ok coins →
        (collect m cfg up).generalSupplyTotalGauge
          = (match (coins.filterMap fun c => m.parseFloat c.Amount).getLast? with
             | none => []
             | some v => [(cfg.Denom, m.div v cfg.DenomCoefficient)])
        ∧ ((collect m cfg up).generalSupplyTotalGauge = []
            ↔ ∀ c ∈ coins, m.parseFloat c.Amount = none)
        ∧ samplesOf MetricName.cosmos_general_supply_total
            (GeneralHandler m cfg up).body
          = (match (coins.filterMap fun c => m.parseFloat c.Amount).getLast? with
             | none => []
             | some v =>
               [{ name := MetricName.cosmos_general_supply_total,
                  labels := cfg.ConstLabels ++ [("denom", cfg.Denom)],
                  value := m.div v cfg.DenomCoefficient }])) := by
  have hcp := (collect_fields m cfg up).2.2.2.2.1
  have hts := (collect_fields m cfg up).2.2.2.2.2.1
  have hloop : ∀ coins : List Coin,
      coinLoop m cfg coins [] =
        (match (coins.filterMap fun c => m.parseFloat c.Amount).getLast? with
         | none => []
         | some v => [(cfg.Denom, m.div v cfg.DenomCoefficient)]) := by
    intro coins
    rw [coinLoop_closed]
    split <;> rfl
  have hlen : ∀ coins : List Coin, (coinLoop m cfg coins []).length ≤ 1 := by
    intro coins
    rw [hloop]
    split <;> simp
  have hnil : ∀ coins : List Coin,
      coinLoop m cfg coins [] = [] ↔ ∀ c ∈ coins, m.parseFloat c.Amount = none := by
    intro coins
    rw [hloop]
    cases h : (coins.filterMap fun c => m.parseFloat c.Amount).getLast? with
    | none =>
      simp only [true_iff]
      rw [List.getLast?_eq_none_iff] at h
      intro c hc
      by_contra hne
      obtain ⟨v, hv⟩ := Option.ne_none_iff_exists'.mp hne
      have : v ∈ coins.filterMap fun c => m.parseFloat c.Amount :=
        List.mem_filterMap.mpr ⟨c, hc, hv⟩
      rw [h] at this
      cases this
    | some v =>
      simp only [List.cons_ne_nil, false_iff]
      intro hall
      have hmem := List.mem_of_getLast?_eq_some h
      obtain ⟨c, hc, hv⟩ := List.mem_filterMap.mp hmem
      rw [hall c hc] at hv
      cases hv
  refine ⟨?_, ?_, ?_, ?_⟩
  · rw [hcp]
    simp only [communityPoolTask, Accumulator.fresh, GaugeVec.new]
    split
    · simp
    · exact hlen _
  · rw [hts]
    simp only [totalSupplyTask, Accumulator.fresh, GaugeVec.new]
    split
    · simp
    · exact hlen _
  · intro coins hresp
    have hvec : (collect m cfg up).generalCommunityPoolGauge = coinLoop m cfg coins [] := by
      rw [hcp]
      simp only [communityPoolTask, hresp, Accumulator.fresh, GaugeVec.new]
    refine ⟨by rw [hvec, hloop], by rw [hvec]; exact hnil coins, ?_⟩
    simp only [GeneralHandler]
    rw [samplesOf_render]
    simp only [Accumulator.slot, hvec, hloop, gaugeVecSamples]
    split <;> simp
  · intro coins hresp
    have hvec : (collect m cfg up).generalSupplyTotalGauge = coinLoop m cfg coins [] := by
      rw [hts]
      simp only [totalSupplyTask, hresp, Accumulator.fresh, GaugeVec.new]
    refine ⟨by rw [hvec, hloop], by rw [hvec]; exact hnil coins, ?_⟩
    simp only [GeneralHandler]
    rw [samplesOf_render]
    simp only [Accumulator.slot, hvec, hloop, gaugeVecSamples]
    split <;> simp

/-- Two parsable entries of different denoms: the one child holds the last
amount, 7.5, and not the sum. -/
theorem collection_gauge_holds_last_entry_witness :
    (collect ratModel sampleConfig healthyUpstream).generalSupplyTotalGauge
      = [("atom", 15 / 2)] := by
  have h := ((collection_gauge_holds_last_entry ratModel sampleConfig
    healthyUpstream).2.2.2 [⟨"uatom", "3000000"⟩, ⟨"ibc/27394", "7500000"⟩] rfl).1
  have hp1 : ratModel.parseFloat "3000000" = some 3000000 := by decide
  have hp2 : ratModel.parseFloat "7500000" = some 7500000 := by decide
  rw [h]
  simp only [List.filterMap_cons, List.filterMap_nil, hp1, hp2]
  simp only [List.getLast?, List.getLast, ratModel, sampleConfig]
  norm_num

/-! ## Denomination of the monetary gauges -/

/-- C7, as stated, fails on the staking task: with the coefficient `1e6` and a
pool of 5000000 bonded and 250000 not bonded base units, the two gauges are
rendered as 5000000 and 250000, which are not the amounts divided by the
coefficient. -/
theorem staking_gauges_not_divided :
    samplesOf MetricName.cosmos_general_bonded_tokens
        (GeneralHandler ratModel sampleConfig healthyUpstream).body
      = [{ name := MetricName.cosmos_general_bonded_tokens,
           labels := [("chain_id", "cosmoshub-4")], value := 5000000 }]
    ∧ samplesOf MetricName.cosmos_general_not_bonded_tokens
        (GeneralHandler ratModel sampleConfig healthyUpstream).body
      = [{ name := MetricName.cosmos_general_not_bonded_tokens,
           labels := [("chain_id", "cosmoshub-4")], value := 250000 }]
    ∧ (5000000 : ℚ) ≠
        ratModel.div (ratModel.ofInt 5000000) sampleConfig.DenomCoefficient
    ∧ (250000 : ℚ) ≠
        ratModel.div (ratModel.ofInt 250000) sampleConfig.DenomCoefficient := by
  have hb := (collect_fields ratModel sampleConfig healthyUpstream).2.2.1
  have hn := (collect_fields ratModel sampleConfig healthyUpstream).2.2.2.1
  refine ⟨?_, ?_, ?_, ?_⟩
  · simp only [GeneralHandler]
    rw [samplesOf_render]
    simp only [Accumulator.slot, hb]
    simp [stakingPoolTask, healthyUpstream, Gauge.Set, gaugeSamples, Gauge.value, ratModel,
      sampleConfig]
  · simp only [GeneralHandler]
    rw [samplesOf_render]
    simp only [Accumulator.slot, hn]
    simp [stakingPoolTask, healthyUpstream, Gauge.Set, gaugeSamples, Gauge.value, ratModel,
      sampleConfig]
  · simp only [ratModel, sampleConfig]
    norm_num
  · simp only [ratModel, sampleConfig]
    norm_num

/-- C7, amended. The gauges labelled by `denom` are set to a parsed amount
divided by `DenomCoefficient`.  For a community pool or total supply response
every parsable entry is written so in turn: a response that ends with an entry
of parsed amount `value` leaves the one child `value / DenomCoefficient` under
`Denom`; in general the vector holds the last parsable entry's amount divided
by `DenomCoefficient` (and is empty when no entry parses), so every child
present holds `value / DenomCoefficient` for the parsed amount `value` of an
entry of the response.  The annual provisions child holds the parsed
provisions divided by `DenomCoefficient`.  The bonded and not bonded gauges
are set to the pool amounts converted to `float64`, not divided. -/
theorem monetary_gauges_denomination {F : Type} (m : Float64Model F)
    (cfg : Config F) (up : Upstream F) :
    (∀ pool : Pool, up.Pool = Except.ok pool →
        (collect m cfg up).generalBondedTokensGauge = some (m.ofInt pool.BondedTokens)
        ∧ (collect m cfg up).generalNotBondedTokensGauge
            = some (m.ofInt pool.NotBondedTokens))
    ∧ (∀ coins : List Coin, up.CommunityPool = Except.ok coins →
        ∀ child ∈ (collect m cfg up).generalCommunityPoolGauge,
          ∃ c ∈ coins, ∃ value : F, m.parseFloat c.Amount = some value
            ∧ child = (cfg.Denom, m.div value cfg.DenomCoefficient))
    ∧ (∀ coins : List Coin, up.TotalSupply = Except.ok coins →
        ∀ child ∈ (collect m cfg up).generalSupplyTotalGauge,
          ∃ c ∈ coins, ∃ value : F, m.parseFloat c.Amount = some value
            ∧ child = (cfg.Denom, m.div value cfg.DenomCoefficient))
    ∧ (∀ (provisions : String) (value : F), up.AnnualProvisions = Except.ok provisions →
        m.parseFloat provisions = some value →
        (collect m cfg up).generalAnnualProvisions
          = [(cfg.Denom, m.div value cfg.DenomCoefficient)])
    ∧ (∀ (pre : List Coin) (c : Coin) (value : F),
        up.CommunityPool = Except.ok (pre ++ [c]) → m.parseFloat c.Amount = some value →
        (collect m cfg up).generalCommunityPoolGauge
          = [(cfg.Denom, m.div value cfg.DenomCoefficient)])
    ∧ (∀ (pre : List Coin) (c : Coin) (value : F),
        up.TotalSupply = Except.ok (pre ++ [c]) → m.parseFloat c.Amount = some value →
        (collect m cfg up).generalSupplyTotalGauge
          = [(cfg.Denom, m.div value cfg.DenomCoefficient)])
    ∧ (∀ coins : List Coin, up.CommunityPool = Except.ok coins →
        (collect m cfg up).generalCommunityPoolGauge
          = (match (coins.filterMap fun c => m.parseFloat c.Amount).getLast? with
             | none => []
             | some value => [(cfg.Denom, m.div value cfg.DenomCoefficient)]))
    ∧ (∀ coins : List Coin, up.TotalSupply = Except.ok coins →
        (collect m cfg up).generalSupplyTotalGauge
          = (match (coins.filterMap fun c => m.parseFloat c.Amount).getLast? with
             | none => []
             | some value => [(cfg.Denom, m.div value cfg.DenomCoefficient)])) := by
  have hf := collect_fields m cfg up
  have hloop : ∀ coins : List Coin, ∀ child ∈ coinLoop m cfg coins [],
      ∃ c ∈ coins, ∃ value : F, m.parseFloat c.Amount = some value
        ∧ child = (cfg.Denom, m.div value cfg.DenomCoefficient) := by
    intro coins child hchild
    rw [coinLoop_closed] at hchild
    cases h : (coins.filterMap fun c => m.parseFloat c.Amount).getLast? with
    | none =>
      rw [h] at hchild
      cases hchild
    | some v =>
      rw [h] at hchild
      have hmem := List.mem_of_getLast?_eq_some h
      obtain ⟨c, hc, hv⟩ := List.mem_filterMap.mp hmem
      simp only [GaugeVec.WithSet, List.mem_singleton] at hchild
      exact ⟨c, hc, v, hv, hchild⟩
  have hlast : ∀ (pre : List Coin) (c : Coin) (value : F),
      m.parseFloat c.Amount = some value →
      coinLoop m cfg (pre ++ [c]) [] = [(cfg.Denom, m.div value cfg.DenomCoefficient)] := by
    intro pre c value hparse
    rw [coinLoop_fresh, List.filterMap_append]
    simp [hparse]
  have hcp : ∀ coins : List Coin, up.CommunityPool = Except.ok coins →
      (collect m cfg up).generalCommunityPoolGauge = coinLoop m cfg coins [] := by
    intro coins hresp
    rw [hf.2.2.2.2.1]
    simp only [communityPoolTask, hresp, Accumulator.fresh, GaugeVec.new]
  have hts : ∀ coins : List Coin, up.TotalSupply = Except.ok coins →
      (collect m cfg up).generalSupplyTotalGauge = coinLoop m cfg coins [] := by
    intro coins hresp
    rw [hf.2.2.2.2.2.1]
    simp only [totalSupplyTask, hresp, Accumulator.fresh, GaugeVec.new]
  refine ⟨?_, ?_, ?_, ?_, ?_, ?_, ?_, ?_⟩
  · intro pool hpool
    rw [hf.2.2.1, hf.2.2.2.1]
    simp [stakingPoolTask, hpool, Gauge.Set]
  · intro coins hresp child hchild
    rw [hcp coins hresp] at hchild
    exact hloop coins child hchild
  · intro coins hresp child hchild
    rw [hts coins hresp] at hchild
    exact hloop coins child hchild
  · intro provisions value hresp hparse
    rw [hf.2.2.2.2.2.2.2.1]
    simp only [annualProvisionsTask, hresp, hparse, Accumulator.fresh, GaugeVec.new,
      GaugeVec.WithSet]
  · intro pre c value hresp hparse
    rw [hcp _ hresp]
    exact hlast pre c value hparse
  · intro pre c value hresp hparse
    rw [hts _ hresp]
    exact hlast pre c value hparse
  · intro coins hresp
    rw [hcp coins hresp, coinLoop_fresh]
  · intro coins hresp
    rw [hts coins hresp, coinLoop_fresh]

/-- On the healthy upstream: annual provisions of 42000000 base units are
exposed as 42000000 / 1e6, the total supply, whose last entry is 7500000 base
units, as 7500000 / 1e6, and the bonded pool of 5000000 base units as
5000000. -/
theorem monetary_gauges_denomination_witness :
    (collect ratModel sampleConfig healthyUpstream).generalAnnualProvisions
      = [("atom", ratModel.div 42000000 1000000)]
    ∧ (collect ratModel sampleConfig healthyUpstream).generalSupplyTotalGauge
      = [("atom", ratModel.div 7500000 1000000)]
    ∧ (collect ratModel sampleConfig healthyUpstream).generalBondedTokensGauge
      = some (ratModel.ofInt 5000000) :=
  have h := monetary_gauges_denomination ratModel sampleConfig healthyUpstream
  ⟨h.2.2.2.1 "42000000.000000000000000000" 42000000 rfl
      (by simp [ratModel, parseDecimal, parseUnsigned, digitsValue]),
    h.2.2.2.2.2.1 [⟨"uatom", "3000000"⟩] ⟨"ibc/27394", "7500000"⟩ 7500000 rfl (by decide),
    (h.1 ⟨5000000, 250000⟩ rfl).1⟩

/-! ## Failed tasks -/

/-- C8, as stated, fails on the scalar gauges: when the price directory cannot
be reached the price task sets nothing, yet the snapshot still has a sample
for `cosmos_token_price`, holding the value 0 of a registered gauge that was
never set. -/
theorem unset_gauge_is_rendered_as_zero :
    taskFailed ratModel sampleConfig degradedUpstream Task.price = true
    ∧ (collect ratModel sampleConfig degradedUpstream).generalTokenPrice = none
    ∧ samplesOf MetricName.cosmos_token_price
        (GeneralHandler ratModel sampleConfig degradedUpstream).body
      = [{ name := MetricName.cosmos_token_price,
           labels := [("chain_id", "cosmoshub-4")], value := 0 }]
    ∧ samplesOf MetricName.cosmos_token_price
        (GeneralHandler ratModel sampleConfig degradedUpstream).body ≠ [] := by
  have hp := (collect_fields ratModel sampleConfig degradedUpstream).1
  have hnone : (collect ratModel sampleConfig degradedUpstream).generalTokenPrice = none := by
    rw [hp]
    rfl
  have hs : samplesOf MetricName.cosmos_token_price
      (GeneralHandler ratModel sampleConfig degradedUpstream).body
        = [{ name := MetricName.cosmos_token_price,
             labels := [("chain_id", "cosmoshub-4")], value := 0 }] := by
    simp only [GeneralHandler]
    rw [samplesOf_render]
    simp only [Accumulator.slot, hnone]
    rfl
  refine ⟨by decide, hnone, hs, ?_⟩
  rw [hs]
  exact List.cons_ne_nil _ _

/-- C8, amended. For every task other than the governance task, if its
upstream call returns an error (or, for inflation and annual provisions, the
returned value fails to parse), the task leaves the accumulator as it was: it
sets none of its gauges, which are after the scrape as they were created.  In
the rendered snapshot a gauge vector of the task then has no sample, and a
scalar gauge of the task has its one sample with the value 0 of a gauge that
was never set.  The staking task sets both the bonded and the not bonded gauge
or neither. -/
theorem failed_task_sets_nothing {F : Type} (m : Float64Model F) (cfg : Config F)
    (up : Upstream F) :
    (∀ t : Task, t ≠ Task.gov → taskFailed m cfg up t = true →
      (∀ acc : Accumulator F, runTask m cfg up acc t = acc)
      ∧ (∀ g ∈ gaugesOf t,
          (collect m cfg up).slot g = (Accumulator.fresh : Accumulator F).slot g
          ∧ samplesOf g (GeneralHandler m cfg up).body
            = (if isGaugeVec g then []
               else [{ name := g, labels := cfg.ConstLabels, value := m.zero }])))
    ∧ ((collect m cfg up).generalBondedTokensGauge.isSome
        = (collect m cfg up).generalNotBondedTokensGauge.isSome) := by
  constructor
  · intro t hgov hfail
    have hid : ∀ acc : Accumulator F, runTask m cfg up acc t = acc := by
      intro acc
      cases t
      case gov => exact absurd rfl hgov
      case inflation =>
        simp only [taskFailed, parseFails, isOk] at hfail
        simp only [runTask, inflationTask]
        cases h : up.Inflation with
        | error e => rfl
        | ok v =>
          rw [h] at hfail
          cases hp : m.parseFloat v with
          | none => simp only [hp]
          | some x => simp [hp] at hfail
      case annualProvisions =>
        simp only [taskFailed, parseFails, isOk] at hfail
        simp only [runTask, annualProvisionsTask]
        cases h : up.AnnualProvisions with
        | error e => rfl
        | ok v =>
          rw [h] at hfail
          cases hp : m.parseFloat v with
          | none => simp only [hp]
          | some x => simp [hp] at hfail
      all_goals
        simp only [taskFailed, querySucceeded, isOk] at hfail
        simp only [runTask, priceTask, blockHeightTask, stakingPoolTask, communityPoolTask,
          totalSupplyTask]
        split
        · rfl
        · rename_i h
          rw [h] at hfail
          simp at hfail
    refine ⟨hid, ?_⟩
    intro g hg
    have hslot : (collect m cfg up).slot g = (Accumulator.fresh : Accumulator F).slot g := by
      rw [collect_slot m cfg up t g hg, hid]
    refine ⟨hslot, ?_⟩
    simp only [GeneralHandler]
    rw [samplesOf_render, hslot]
    cases g <;> rfl
  · have hf := collect_fields m cfg up
    rw [hf.2.2.1, hf.2.2.2.1]
    simp only [stakingPoolTask]
    split <;> rfl

/-- On the degraded upstream the staking and inflation calls fail: the bonded
tokens gauge is never set and is rendered as 0; on an upstream where
everything fails the community pool vector has no sample. -/
theorem failed_task_sets_nothing_witness :
    (collect ratModel sampleConfig degradedUpstream).slot
        MetricName.cosmos_general_bonded_tokens = Sum.inl none
    ∧ samplesOf MetricName.cosmos_general_bonded_tokens
        (GeneralHandler ratModel sampleConfig degradedUpstream).body
      = [{ name := MetricName.cosmos_general_bonded_tokens,
           labels := [("chain_id", "cosmoshub-4")], value := 0 }]
    ∧ samplesOf MetricName.cosmos_general_community_pool
        (GeneralHandler ratModel sampleConfig deadUpstream).body = [] :=
  have h1 := ((failed_task_sets_nothing ratModel sampleConfig degradedUpstream).1
    Task.stakingPool (by decide) (by decide)).2
      MetricName.cosmos_general_bonded_tokens (by decide)
  have h2 := ((failed_task_sets_nothing ratModel sampleConfig deadUpstream).1
    Task.communityPool (by decide) (by decide)).2
      MetricName.cosmos_general_community_pool (by decide)
  ⟨h1.1, h1.2, h2.2⟩

end CosmosExporter
